import Mathlib

/-!
Shallow embedding of src/TranslucentTB/win32.cpp.

Each operation of the win32 facade calls into the OS; the embedding makes
the OS responses explicit parameters (booleans for calls that can merely
succeed or fail, Option values for queries that produce data) and returns,
next to the C++ return value, the list of messages that the function handed
to the ErrorHandle or LastErrorHandle logging sink together with their
severity. String literals from the source are kept verbatim except that
contractions are spelled out (for example "Could not" for the contracted
form in the source).
-/

set_option autoImplicit false

/-- Severity levels of the Error::Level enumeration used by the logging
sink (ttberror.hpp). -/
inductive Level where
  | debug
  | log
  | error
  | fatal
  deriving DecidableEq, Repr

/-- One invocation of the logging sink: a severity and a message. -/
structure LogEvent where
  level : Level
  msg : String
  deriving DecidableEq, Repr

namespace win32

/-- Windows constant ERROR_FILE_NOT_FOUND. -/
def ERROR_FILE_NOT_FOUND : Nat := 2

/-- Windows constant ERROR_PATH_NOT_FOUND. -/
def ERROR_PATH_NOT_FOUND : Nat := 3

/-- Windows constant ERROR_OLD_WIN_VERSION. -/
def ERROR_OLD_WIN_VERSION : Nat := 1150

/-- Windows constant FILE_ATTRIBUTE_DIRECTORY (0x10). -/
def FILE_ATTRIBUTE_DIRECTORY : Nat := 16

/-- Windows constant DRIVE_REMOTE. -/
def DRIVE_REMOTE : Nat := 4

/-- Outcome of the GetFileAttributes OS call for a given path: either the
attribute bits, or INVALID_FILE_ATTRIBUTES together with the GetLastError
code. -/
inductive AttrResult where
  | ok (attrs : Nat)
  | err (code : Nat)
  deriving DecidableEq, Repr

/-- Return value of a boolean facade operation together with the log
events it emitted. -/
structure ProbeResult where
  ret : Bool
  logs : List LogEvent
  deriving DecidableEq, Repr

/-- Embedding of win32::IsDirectory (win32.cpp lines 89 to 106). The OS
response to GetFileAttributes on the queried path is the argument. On
INVALID_FILE_ATTRIBUTES the function logs at Debug severity unless the
error is ERROR_FILE_NOT_FOUND or ERROR_PATH_NOT_FOUND, and returns false;
otherwise it returns the directory attribute bit as a boolean. -/
def IsDirectory (r : AttrResult) : ProbeResult :=
  match r with
  | .err code =>
      { ret := false
        logs :=
          if code ≠ ERROR_FILE_NOT_FOUND ∧ code ≠ ERROR_PATH_NOT_FOUND then
            [⟨Level.debug, "Failed to check if directory exists."⟩]
          else [] }
  | .ok attrs => { ret := decide (attrs &&& FILE_ATTRIBUTE_DIRECTORY ≠ 0), logs := [] }

/-- Embedding of win32::FileExists (win32.cpp lines 108 to 124). Same
structure as IsDirectory, but the non-not-found failure is logged at Log
severity and on success the negation of the directory bit is returned. -/
def FileExists (r : AttrResult) : ProbeResult :=
  match r with
  | .err code =>
      { ret := false
        logs :=
          if code ≠ ERROR_FILE_NOT_FOUND ∧ code ≠ ERROR_PATH_NOT_FOUND then
            [⟨Level.log, "Failed to check if file exists."⟩]
          else [] }
  | .ok attrs => { ret := decide (attrs &&& FILE_ATTRIBUTE_DIRECTORY = 0), logs := [] }

/-- Embedding of win32::IsAtLeastBuild (win32.cpp lines 64 to 87). The
arguments are the outcome of the VerifyVersionInfo OS call and, when it
failed, the GetLastError code. -/
def IsAtLeastBuild (verifyOk : Bool) (lastError : Nat) : ProbeResult :=
  if verifyOk then { ret := true, logs := [] }
  else
    { ret := false
      logs :=
        if lastError ≠ ERROR_OLD_WIN_VERSION then
          [⟨Level.log, "Error obtaining version info."⟩]
        else [] }

/-- The wide null character. -/
def NUL : Char := Char.ofNat 0

/-- Read of index i on a const std::wstring of content s, as done by
operator[] in C++: the stored character for i below the size, the null
terminator at i equal to the size, and undefined (None) past the size. -/
def wstringIndex (s : List Char) (i : Nat) : Option Char :=
  if h : i < s.length then some (s.get ⟨i, h⟩)
  else if i = s.length then some NUL
  else none

/-- The character a well-defined read at index i yields: the stored
character, or the null terminator at the size. -/
def wcharAt (s : List Char) (i : Nat) : Char :=
  (s.get? i).getD NUL

/-- Embedding of the lpClass selection in win32::OpenLink (win32.cpp line
213): the expression reads index 4 of the link and hands "https" to the
shell when that character is the letter s, "http" otherwise. None means
the read itself was out of bounds. -/
def OpenLinkClass (link : List Char) : Option String :=
  (wstringIndex link 4).map fun c => if c = 's' then "https" else "http"

/-- One call to win32::GetExeLocation: the value returned, the state of
the m_ExeLocation cache after the call, whether the OS was queried, and
the log events emitted. -/
structure ExeCallResult where
  ret : String
  cache : String
  queried : Bool
  logs : List LogEvent
  deriving DecidableEq, Repr

/-- Embedding of win32::GetExeLocation (win32.cpp lines 45 to 62) around
the process-wide cache win32::m_ExeLocation (line 26). The first argument
is the cache content on entry; the second is the outcome the OS query
GetProcessFileName(GetCurrentProcess()) would produce on this call (some
path on success, none on failure). When the cache is empty the query runs:
on success the result is stored in the cache, on failure ErrorHandle is
called at Fatal severity and the cache stays empty; the function returns
the cache content. When the cache is non-empty it is returned with no
query. -/
def GetExeLocation (m_ExeLocation : String) (query : Option String) : ExeCallResult :=
  if m_ExeLocation = "" then
    match query with
    | some loc => { ret := loc, cache := loc, queried := true, logs := [] }
    | none =>
        { ret := "", cache := "", queried := true
          logs := [⟨Level.fatal, "Failed to determine executable location!"⟩] }
  else
    { ret := m_ExeLocation, cache := m_ExeLocation, queried := false, logs := [] }

/-- OS responses consumed by win32::CopyToClipboard: whether OpenClipboard
(through the ClipboardContext), EmptyClipboard, GlobalAlloc (through
AutoFree::GlobalHandle::Alloc), GlobalLock (through AutoUnlock) and
SetClipboardData succeed. -/
structure ClipboardEnv where
  openOk : Bool
  emptyOk : Bool
  allocOk : Bool
  lockOk : Bool
  setDataOk : Bool
  deriving DecidableEq, Repr

/-- Outcome of one win32::CopyToClipboard call: the boolean return value,
the log events, whether the global-memory allocation happened, whether the
local AutoFree owner freed that allocation when the function returned, and
whether ownership of it was taken over by the OS clipboard. -/
structure ClipboardOutcome where
  ret : Bool
  logs : List LogEvent
  allocated : Bool
  freedLocally : Bool
  transferred : Bool
  deriving DecidableEq, Repr

/-- Embedding of win32::CopyToClipboard (win32.cpp lines 126 to 165).
The AutoFree::GlobalHandle owner (smart/autofree.hpp, declarations only in
this tree) is modelled with the standard smart-handle semantics its usage
in this function shows: its destructor frees the allocation unless detach
was called, and detach relinquishes ownership and returns the raw handle
without freeing. In the source, detach is evaluated as the argument of
SetClipboardData, before the outcome of that call is known, so in both the
failure and the success branch of the final step the local owner no longer
frees the memory; only on success does the clipboard take ownership. -/
def CopyToClipboard (env : ClipboardEnv) : ClipboardOutcome :=
  if !env.openOk then
    { ret := false, logs := [⟨Level.error, "Failed to open clipboard."⟩]
      allocated := false, freedLocally := false, transferred := false }
  else if !env.emptyOk then
    { ret := false, logs := [⟨Level.error, "Failed to empty clipboard."⟩]
      allocated := false, freedLocally := false, transferred := false }
  else if !env.allocOk then
    { ret := false, logs := [⟨Level.error, "Failed to allocate memory for the clipboard."⟩]
      allocated := false, freedLocally := false, transferred := false }
  else if !env.lockOk then
    { ret := false, logs := [⟨Level.error, "Failed to lock memory for the clipboard."⟩]
      allocated := true, freedLocally := true, transferred := false }
  else if !env.setDataOk then
    { ret := false, logs := [⟨Level.error, "Failed to copy data to clipboard."⟩]
      allocated := true, freedLocally := false, transferred := false }
  else
    { ret := true, logs := []
      allocated := true, freedLocally := false, transferred := true }

/-- The six mitigation policies win32::HardenProcess installs, in source
order. -/
inductive MitigationPolicy where
  | aslr
  | dynamicCode
  | strictHandle
  | extensionPoint
  | signature
  | imageLoad
  deriving DecidableEq, Repr

/-- One observable event of a win32::HardenProcess run: a
GetProcessMitigationPolicy call, a SetProcessMitigationPolicy call, a
GetVolumePathName call (each with its outcome), or a logging-sink
invocation. -/
inductive HardenEvent where
  | queryPolicy (p : MitigationPolicy) (ok : Bool)
  | installPolicy (p : MitigationPolicy) (ok : Bool)
  | queryVolume (ok : Bool)
  | logCall (lv : Level) (msg : String)
  deriving DecidableEq, Repr

/-- OS responses consumed by win32::HardenProcess: the outcomes of the
ASLR policy query, of the six policy installs, of resolving the volume of
the executable, and the drive type GetDriveType reports for that volume. -/
structure HardenEnv where
  getAslrOk : Bool
  setAslrOk : Bool
  setDynamicCodeOk : Bool
  setHandleOk : Bool
  setExtensionOk : Bool
  setSignatureOk : Bool
  getVolumeOk : Bool
  driveType : Nat
  setImageLoadOk : Bool
  deriving DecidableEq, Repr

/-- The PROCESS_MITIGATION_IMAGE_LOAD_POLICY fields the source touches;
value-initialized to all false by the braces in the source. -/
structure ImageLoadPolicy where
  noLowMandatoryLabelImages : Bool
  preferSystem32Images : Bool
  noRemoteImages : Bool
  deriving DecidableEq, Repr

/-- Result of a win32::HardenProcess run: the event trace and the image
load policy value handed to the final SetProcessMitigationPolicy call. -/
structure HardenResult where
  trace : List HardenEvent
  loadPolicy : ImageLoadPolicy
  deriving DecidableEq, Repr

/-- Embedding of win32::HardenProcess (win32.cpp lines 233 to 323). The
function body is a fixed sequence of six policy steps: ASLR (query, then
install only when the query succeeded), dynamic code, strict handle
checks, extension points, image signature, image load; every failed call
is followed by a LastErrorHandle invocation at Log severity and the
sequence always continues. For the image load step, NoRemoteImages is set
to the comparison of the drive type with DRIVE_REMOTE only when
GetVolumePathName succeeds, and is left at its false initialization
otherwise. The function has return type void: the result here is purely
the observable trace. -/
def HardenProcess (env : HardenEnv) : HardenResult :=
  let aslrTrace : List HardenEvent :=
    if env.getAslrOk then
      [.queryPolicy .aslr true, .installPolicy .aslr env.setAslrOk] ++
        (if env.setAslrOk then [] else [.logCall Level.log "Could not disallow stripped images."])
    else
      [.queryPolicy .aslr false, .logCall Level.log "Could not get current ASLR policy."]
  let dynTrace : List HardenEvent :=
    .installPolicy .dynamicCode env.setDynamicCodeOk ::
      (if env.setDynamicCodeOk then [] else [.logCall Level.log "Could not disable dynamic code generation."])
  let handleTrace : List HardenEvent :=
    .installPolicy .strictHandle env.setHandleOk ::
      (if env.setHandleOk then [] else [.logCall Level.log "Could not enable strict handle checks."])
  let extTrace : List HardenEvent :=
    .installPolicy .extensionPoint env.setExtensionOk ::
      (if env.setExtensionOk then [] else [.logCall Level.log "Could not disable extension point DLLs."])
  let sigTrace : List HardenEvent :=
    .installPolicy .signature env.setSignatureOk ::
      (if env.setSignatureOk then [] else [.logCall Level.log "Could not enable image signature enforcement."])
  let volumeTrace : List HardenEvent :=
    if env.getVolumeOk then [.queryVolume true]
    else [.queryVolume false, .logCall Level.log "Unable to get volume path name."]
  let loadTrace : List HardenEvent :=
    .installPolicy .imageLoad env.setImageLoadOk ::
      (if env.setImageLoadOk then [] else [.logCall Level.log "Could not set image load policy."])
  { trace := aslrTrace ++ dynTrace ++ handleTrace ++ extTrace ++ sigTrace ++ volumeTrace ++ loadTrace
    loadPolicy :=
      { noLowMandatoryLabelImages := true
        preferSystem32Images := true
        noRemoteImages :=
          if env.getVolumeOk then decide (env.driveType ≠ DRIVE_REMOTE) else false } }

/-- The mitigation policy a trace event belongs to, if any. -/
def stepOf : HardenEvent → Option MitigationPolicy
  | .queryPolicy p _ => some p
  | .installPolicy p _ => some p
  | .queryVolume _ => none
  | .logCall _ _ => none

/-- Collapse adjacent equal entries of a list of policies, so that the
query and the install of one step count as one step. -/
def collapseSteps : List MitigationPolicy → List MitigationPolicy
  | [] => []
  | [p] => [p]
  | p :: q :: rest =>
      if p = q then collapseSteps (q :: rest) else p :: collapseSteps (q :: rest)

/-- The sequence of mitigation-policy steps a trace touches, in order,
with the calls belonging to one step collapsed. -/
def policySteps (tr : List HardenEvent) : List MitigationPolicy :=
  collapseSteps (tr.filterMap stepOf)

/-- Whether a trace event is a failed OS call. -/
def eventFailed : HardenEvent → Bool
  | .queryPolicy _ ok => !ok
  | .installPolicy _ ok => !ok
  | .queryVolume ok => !ok
  | .logCall _ _ => false

/-- Whether a trace event is a logging-sink invocation at Log severity. -/
def isLogSeverityLog : HardenEvent → Bool
  | .logCall lv _ => lv = Level.log
  | _ => false

/-- Every failed OS call in the trace is immediately followed by a
logging-sink invocation at Log severity. -/
def failuresLogged : List HardenEvent → Bool
  | [] => true
  | [e] => !eventFailed e
  | e :: e2 :: rest => (!eventFailed e || isLogSeverityLog e2) && failuresLogged (e2 :: rest)

/-- Every logging-sink invocation in the trace is at Log severity. -/
def allLogsAtLog (tr : List HardenEvent) : Bool :=
  tr.all fun e =>
    match e with
    | .logCall lv _ => lv = Level.log
    | _ => true

end win32

set_option maxHeartbeats 4000000 in
/-- C1: for every combination of OS-call outcomes, win32::HardenProcess
touches exactly the six mitigation-policy steps ASLR, dynamic code, strict
handle checks, extension points, image signature and image load, in that
fixed order; every failed query or install call is immediately followed by
a logging-sink invocation at Log severity; every logging-sink invocation
of the run is at Log severity; and the run always produces a complete
trace (the function is total and returns nothing, so no failure is
externally visible). -/
theorem hardenProcess_six_steps_all_failures_logged (env : win32.HardenEnv) :
    win32.policySteps (win32.HardenProcess env).trace =
      [.aslr, .dynamicCode, .strictHandle, .extensionPoint, .signature, .imageLoad] ∧
    win32.failuresLogged (win32.HardenProcess env).trace = true ∧
    win32.allLogsAtLog (win32.HardenProcess env).trace = true := by
  obtain ⟨a, b, c, d, e, f, g, dt, i⟩ := env
  cases a <;> cases b <;> cases c <;> cases d <;> cases e <;> cases f <;> cases g <;> cases i <;>
    exact ⟨rfl, rfl, rfl⟩

/-- C1 witness: a run in which the dynamic-code install fails still
touches all six steps. -/
theorem hardenProcess_six_steps_witness :
    win32.policySteps
        (win32.HardenProcess ⟨true, true, false, true, true, true, true, 3, true⟩).trace =
      [.aslr, .dynamicCode, .strictHandle, .extensionPoint, .signature, .imageLoad] :=
  (hardenProcess_six_steps_all_failures_logged ⟨true, true, false, true, true, true, true, 3, true⟩).1

/-- C7: the image-load policy installed by win32::HardenProcess has
NoRemoteImages enabled exactly when the volume query succeeded and the
drive type is not DRIVE_REMOTE; the other two touched fields are always
enabled; when the volume query fails, the failure is logged at Log
severity and the install of the image-load policy still occurs. -/
theorem hardenProcess_imageLoad_remote_conditional (env : win32.HardenEnv) :
    (win32.HardenProcess env).loadPolicy.noRemoteImages
        = (env.getVolumeOk && decide (env.driveType ≠ win32.DRIVE_REMOTE)) ∧
    (win32.HardenProcess env).loadPolicy.noLowMandatoryLabelImages = true ∧
    (win32.HardenProcess env).loadPolicy.preferSystem32Images = true ∧
    (env.getVolumeOk = false →
      win32.HardenEvent.logCall Level.log "Unable to get volume path name."
        ∈ (win32.HardenProcess env).trace) ∧
    win32.HardenEvent.installPolicy win32.MitigationPolicy.imageLoad env.setImageLoadOk
      ∈ (win32.HardenProcess env).trace := by
  obtain ⟨a, b, c, d, e, f, g, dt, i⟩ := env
  refine ⟨?_, rfl, rfl, ?_, ?_⟩
  · cases g <;> simp [win32.HardenProcess]
  · intro hg
    subst hg
    simp [win32.HardenProcess]
  · simp [win32.HardenProcess]

/-- C7 witness: with a failing volume query the failure is logged, the
remote-image restriction stays at its permissive default, and the
image-load install still happens. -/
theorem hardenProcess_imageLoad_remote_conditional_witness :
    win32.HardenEvent.logCall Level.log "Unable to get volume path name."
        ∈ (win32.HardenProcess ⟨true, true, true, true, true, true, false, 0, true⟩).trace ∧
    (win32.HardenProcess ⟨true, true, true, true, true, true, false, 0, true⟩).loadPolicy.noRemoteImages
        = false ∧
    win32.HardenEvent.installPolicy win32.MitigationPolicy.imageLoad true
      ∈ (win32.HardenProcess ⟨true, true, true, true, true, true, false, 0, true⟩).trace := by
  have h := hardenProcess_imageLoad_remote_conditional ⟨true, true, true, true, true, true, false, 0, true⟩
  exact ⟨h.2.2.2.1 rfl, by simpa using h.1, h.2.2.2.2⟩

/-- C3: on an attribute-query failure both probes return false; when the
error is a not-found code neither invokes the logging sink at all, and on
any other error code IsDirectory logs once at Debug severity while
FileExists logs once at Log severity. -/
theorem probes_error_return_false_logging (code : Nat) :
    (win32.IsDirectory (.err code)).ret = false ∧
    (win32.FileExists (.err code)).ret = false ∧
    ((code = win32.ERROR_FILE_NOT_FOUND ∨ code = win32.ERROR_PATH_NOT_FOUND) →
      (win32.IsDirectory (.err code)).logs = [] ∧
      (win32.FileExists (.err code)).logs = []) ∧
    (¬(code = win32.ERROR_FILE_NOT_FOUND ∨ code = win32.ERROR_PATH_NOT_FOUND) →
      (win32.IsDirectory (.err code)).logs =
        [⟨Level.debug, "Failed to check if directory exists."⟩] ∧
      (win32.FileExists (.err code)).logs =
        [⟨Level.log, "Failed to check if file exists."⟩]) := by
  refine ⟨rfl, rfl, ?_, ?_⟩
  · rintro (h | h) <;> subst h <;> exact ⟨rfl, rfl⟩
  · intro h
    push_neg at h
    simp [win32.IsDirectory, win32.FileExists, h.1, h.2]

/-- C3 witness: the not-found code 2 produces no log events, while the
access-denied code 5 produces the Debug and the Log event. -/
theorem probes_error_return_false_logging_witness :
    (win32.IsDirectory (.err 2)).logs = [] ∧
    (win32.FileExists (.err 5)).logs = [⟨Level.log, "Failed to check if file exists."⟩] ∧
    (win32.IsDirectory (.err 5)).logs = [⟨Level.debug, "Failed to check if directory exists."⟩] := by
  refine ⟨((probes_error_return_false_logging 2).2.2.1 (Or.inl rfl)).1, ?_, ?_⟩
  · exact ((probes_error_return_false_logging 5).2.2.2 (by decide)).2
  · exact ((probes_error_return_false_logging 5).2.2.2 (by decide)).1

/-- C4: on a successful attribute query, IsDirectory returns exactly the
directory attribute bit, FileExists returns its negation, exactly one of
the two returns true, and neither logs. -/
theorem probes_success_partition (attrs : Nat) :
    (win32.IsDirectory (.ok attrs)).ret
        = decide (attrs &&& win32.FILE_ATTRIBUTE_DIRECTORY ≠ 0) ∧
    (win32.FileExists (.ok attrs)).ret = !(win32.IsDirectory (.ok attrs)).ret ∧
    ((win32.IsDirectory (.ok attrs)).ret = true ∨
      (win32.FileExists (.ok attrs)).ret = true) ∧
    ¬((win32.IsDirectory (.ok attrs)).ret = true ∧
      (win32.FileExists (.ok attrs)).ret = true) ∧
    (win32.IsDirectory (.ok attrs)).logs = [] ∧
    (win32.FileExists (.ok attrs)).logs = [] := by
  by_cases h : attrs &&& win32.FILE_ATTRIBUTE_DIRECTORY = 0 <;>
    simp [win32.IsDirectory, win32.FileExists, h]

/-- C10: IsAtLeastBuild returns exactly the outcome of the version check;
a failure with the old-version error code is silent, any other failure is
logged once at Log severity. -/
theorem isAtLeastBuild_result (verifyOk : Bool) (lastError : Nat) :
    (win32.IsAtLeastBuild verifyOk lastError).ret = verifyOk ∧
    (verifyOk = true → (win32.IsAtLeastBuild verifyOk lastError).logs = []) ∧
    (verifyOk = false → lastError = win32.ERROR_OLD_WIN_VERSION →
      (win32.IsAtLeastBuild verifyOk lastError).logs = []) ∧
    (verifyOk = false → lastError ≠ win32.ERROR_OLD_WIN_VERSION →
      (win32.IsAtLeastBuild verifyOk lastError).logs =
        [⟨Level.log, "Error obtaining version info."⟩]) := by
  cases verifyOk <;> simp [win32.IsAtLeastBuild]

/-- C10 witness: a failed check with the old-version code logs nothing
and returns false, while error code 7 is logged. -/
theorem isAtLeastBuild_result_witness :
    (win32.IsAtLeastBuild false 1150).logs = [] ∧
    (win32.IsAtLeastBuild false 1150).ret = false ∧
    (win32.IsAtLeastBuild false 7).logs = [⟨Level.log, "Error obtaining version info."⟩] := by
  refine ⟨(isAtLeastBuild_result false 1150).2.2.1 rfl rfl, ?_, ?_⟩
  · exact (isAtLeastBuild_result false 1150).1
  · exact (isAtLeastBuild_result false 7).2.2.2 rfl (by decide)

/-- C5: whenever the read at index 4 is well defined, the class handed to
the shell is https exactly when that character is the letter s and http
otherwise. -/
theorem openLinkClass_char4 (link : List Char) (h : 4 ≤ link.length) :
    win32.OpenLinkClass link =
      some (if win32.wcharAt link 4 = 's' then "https" else "http") := by
  rcases lt_or_eq_of_le h with h4 | h4
  · simp [win32.OpenLinkClass, win32.wstringIndex, win32.wcharAt, h4,
      List.get?_eq_get h4]
  · have hnone : link[4]? = none := List.getElem?_eq_none (le_of_eq h4.symm)
    simp [win32.OpenLinkClass, win32.wstringIndex, win32.wcharAt, ← h4, hnone]

/-- C5 witness: the two spec examples, one per branch of the character
test. -/
theorem openLinkClass_char4_witness :
    win32.OpenLinkClass ("https://example.com".toList) = some "https" ∧
    win32.OpenLinkClass ("http://example.com".toList) = some "http" := by
  constructor
  · rw [openLinkClass_char4 ("https://example.com".toList) (by decide)]
    decide
  · rw [openLinkClass_char4 ("http://example.com".toList) (by decide)]
    decide

/-- C8: the read of index 4 in OpenLink is out of bounds for every link
shorter than four characters, yields the null terminator (hence the class
http) at length exactly four, and is well defined from length four up. -/
theorem openLinkClass_bounds (link : List Char) :
    (link.length < 4 →
      win32.wstringIndex link 4 = none ∧ win32.OpenLinkClass link = none) ∧
    (link.length = 4 →
      win32.wstringIndex link 4 = some win32.NUL ∧
      win32.OpenLinkClass link = some "http") ∧
    (4 ≤ link.length → (win32.OpenLinkClass link).isSome = true) := by
  refine ⟨?_, ?_, ?_⟩
  · intro h
    have h1 : ¬4 < link.length := by omega
    have h2 : ¬(4 = link.length) := by omega
    simp [win32.OpenLinkClass, win32.wstringIndex, h1, h2]
  · intro h
    have h1 : ¬4 < link.length := by omega
    have h2 : 4 = link.length := h.symm
    constructor
    · simp [win32.wstringIndex, h1, h2]
    · simp [win32.OpenLinkClass, win32.wstringIndex, h1, h2]
      decide
  · intro h
    rw [openLinkClass_char4 link h]
    rfl

/-- C8 witness: a three-character link is out of bounds; the
four-character link http reads the null terminator and yields class
http. -/
theorem openLinkClass_bounds_witness :
    win32.OpenLinkClass ("abc".toList) = none ∧
    win32.wstringIndex ("http".toList) 4 = some win32.NUL ∧
    win32.OpenLinkClass ("http".toList) = some "http" := by
  refine ⟨((openLinkClass_bounds ("abc".toList)).1 (by decide)).2, ?_, ?_⟩
  · exact ((openLinkClass_bounds ("http".toList)).2.1 (by decide)).1
  · exact ((openLinkClass_bounds ("http".toList)).2.1 (by decide)).2

/-- C6 counterexample: when the first call of GetExeLocation hits a
failing OS query and the second call a succeeding one, the two calls
return different strings, refuting the unconditional two-call
memoization. -/
theorem getExeLocation_twice_not_identical :
    (win32.GetExeLocation "" none).ret ≠
      (win32.GetExeLocation (win32.GetExeLocation "" none).cache
        (some "C:\\TranslucentTB.exe")).ret := by
  decide

/-- C6 amended: once the query of the first call succeeds with a
non-empty path, that path is returned, the second call returns the
identical string without querying the OS, and a failing query logs at
Fatal severity and returns the empty string. -/
theorem getExeLocation_memoized_after_success (p : String) (hp : p ≠ "")
    (q2 : Option String) :
    (win32.GetExeLocation "" (some p)).ret = p ∧
    (win32.GetExeLocation (win32.GetExeLocation "" (some p)).cache q2).ret = p ∧
    (win32.GetExeLocation (win32.GetExeLocation "" (some p)).cache q2).queried = false ∧
    win32.GetExeLocation "" none =
      { ret := "", cache := "", queried := true
        logs := [⟨Level.fatal, "Failed to determine executable location!"⟩] } := by
  simp [win32.GetExeLocation, hp]

/-- C6 witness: a concrete succeeding first call followed by a second
call whose query would fail. -/
theorem getExeLocation_memoized_after_success_witness :
    (win32.GetExeLocation "" (some "C:\\TranslucentTB.exe")).ret = "C:\\TranslucentTB.exe" ∧
    (win32.GetExeLocation
        (win32.GetExeLocation "" (some "C:\\TranslucentTB.exe")).cache none).ret
      = "C:\\TranslucentTB.exe" ∧
    (win32.GetExeLocation
        (win32.GetExeLocation "" (some "C:\\TranslucentTB.exe")).cache none).queried = false := by
  have h := getExeLocation_memoized_after_success "C:\\TranslucentTB.exe" (by decide) none
  exact ⟨h.1, h.2.1, h.2.2.1⟩

/-- C9: one step of the cache protocol of GetExeLocation: a non-empty
cache is returned unchanged with no OS query; a failing query never
changes the cache; an empty cache always triggers the query; and a step
either leaves the cache unchanged or moves it from empty to non-empty. -/
theorem exeLocationCache_monotone (cache : String) (q : Option String) :
    (cache ≠ "" → win32.GetExeLocation cache q =
      { ret := cache, cache := cache, queried := false, logs := [] }) ∧
    (q = none → (win32.GetExeLocation cache q).cache = cache) ∧
    (cache = "" → (win32.GetExeLocation cache q).queried = true) ∧
    ((win32.GetExeLocation cache q).cache = cache ∨
      (cache = "" ∧ (win32.GetExeLocation cache q).cache ≠ "")) := by
  by_cases hc : cache = ""
  · subst hc
    cases q with
    | none => simp [win32.GetExeLocation]
    | some p =>
        refine ⟨by simp, by simp, fun _ => by simp [win32.GetExeLocation], ?_⟩
        by_cases hp : p = ""
        · subst hp
          exact Or.inl (by simp [win32.GetExeLocation])
        · exact Or.inr ⟨rfl, by simpa [win32.GetExeLocation] using hp⟩
  · simp [win32.GetExeLocation, hc]

/-- C9 witness: concrete steps, one with a populated cache, one failing
query on the empty cache, one succeeding query on the empty cache. -/
theorem exeLocationCache_monotone_witness :
    win32.GetExeLocation "C:\\a.exe" (some "C:\\b.exe") =
      { ret := "C:\\a.exe", cache := "C:\\a.exe", queried := false, logs := [] } ∧
    (win32.GetExeLocation "" none).cache = "" ∧
    (win32.GetExeLocation "" (some "C:\\b.exe")).queried = true := by
  refine ⟨(exeLocationCache_monotone "C:\\a.exe" (some "C:\\b.exe")).1 (by decide), ?_, ?_⟩
  · exact (exeLocationCache_monotone "" none).2.1 rfl
  · exact (exeLocationCache_monotone "" (some "C:\\b.exe")).2.2.1 rfl

/-- C2: evaluation of CopyToClipboard at the failing input where opening,
emptying, allocation and locking succeed and SetClipboardData fails: the
function returns false and logs, but because detach is evaluated before
the outcome of SetClipboardData is known, the local owner does not free
the allocation (freedLocally is false), contradicting the claim that on
this failure the caller still frees the memory. -/
theorem copyToClipboard_setData_failure_not_freed :
    win32.CopyToClipboard ⟨true, true, true, true, false⟩ =
      { ret := false, logs := [⟨Level.error, "Failed to copy data to clipboard."⟩]
        allocated := true, freedLocally := false, transferred := false } := by
  rfl
